import Mathlib

/-!
# Verification of the financial-reporting data pipeline (`src/app.py`)

Shallow embedding of the data-preparation and forecasting pipeline of the
Streamlit financial dashboard.  Numeric values are modelled as rationals
(`ℚ`); the non-finite results of IEEE float division by zero (NaN / ±inf)
are modelled by an explicit `FloatVal.undef` marker.  The SQLite table is
modelled as a list of rows (the surrogate `id` column is autoassigned by
the store and plays no role in any claim, so it is omitted from the row
model).
-/

namespace FinApp

/-- One row of the `financial_metrics` fact table
(`month TEXT, year INTEGER, revenue DECIMAL, expenses DECIMAL, department TEXT`). -/
structure Row where
  month : String
  year : Nat
  revenue : ℚ
  expenses : ℚ
  department : String
deriving DecidableEq, Repr, Inhabited

/-- One period of the market feed (`stock.history` row): `Close` and `Volume`
may be missing (`pd.isna`), hence `Option`. -/
structure Period where
  close : Option ℚ
  volume : Option ℚ
  month : String
  year : Nat
deriving DecidableEq, Repr

/-- `simulated_revenue = (row['Close'] * row['Volume']) / 1_000_000_000 * 50000`. -/
def simRevenue (c v : ℚ) : ℚ := c * v / 1000000000 * 50000

/-- `simulated_expenses = simulated_revenue * 0.65`. -/
def simExpenses (c v : ℚ) : ℚ := simRevenue c v * (65 / 100)

/-- The two department rows appended for one usable feed period:
60% of revenue and expenses to `Sales`, 40% to `IT`. -/
def rowsFor (c v : ℚ) (m : String) (y : Nat) : List Row :=
  [{ month := m, year := y,
     revenue := simRevenue c v * (6 / 10), expenses := simExpenses c v * (6 / 10),
     department := "Sales" },
   { month := m, year := y,
     revenue := simRevenue c v * (4 / 10), expenses := simExpenses c v * (4 / 10),
     department := "IT" }]

/-- The loop over `history.iterrows()`: periods with a missing `Close` or
`Volume` are skipped (`continue`), usable ones contribute two rows. -/
def processHistory : List Period → List Row
  | [] => []
  | p :: ps =>
    (match p.close, p.volume with
     | some c, some v => rowsFor c v p.month p.year
     | _, _ => []) ++ processHistory ps

/-- The hardcoded static fallback dataset used when the feed fails. -/
def fallbackData : List Row :=
  [{ month := "Jan", year := 2024, revenue := 150000, expenses := 90000, department := "Sales" },
   { month := "Feb", year := 2024, revenue := 160000, expenses := 95000, department := "Sales" },
   { month := "Mar", year := 2024, revenue := 175000, expenses := 92000, department := "Sales" },
   { month := "Jan", year := 2024, revenue := 80000, expenses := 70000, department := "IT" },
   { month := "Feb", year := 2024, revenue := 82000, expenses := 71000, department := "IT" },
   { month := "Mar", year := 2024, revenue := 85000, expenses := 68000, department := "IT" }]

/-- The rows inserted by one seeding pass.  `none` models the feed raising an
exception (network failure); an empty `history` or an empty processed dataset
raises `ValueError` inside the `try`, which the `except` turns into the
fallback dataset as well. -/
def seedData : Option (List Period) → List Row
  | none => fallbackData
  | some ps => if processHistory ps = [] then fallbackData else processHistory ps

/-- `init_database`: create the table, and only if `SELECT count(*)` returns 0,
insert the seed rows. -/
def initDatabase (table : List Row) (feed : Option (List Period)) : List Row :=
  if table.length = 0 then seedData feed else table

/-- The query layer (`query_str`): `SELECT * FROM financial_metrics WHERE
year = {selected_year}`, and only `if selected_depts:` (non-empty list) is the
`AND department IN (...)` clause appended. -/
def queryFilter (table : List Row) (y : Nat) (depts : List String) : List Row :=
  let base := table.filter fun r => decide (r.year = y)
  if depts.isEmpty then base else base.filter fun r => decide (r.department ∈ depts)

/-- A float-valued computation result: `undef` stands for the non-finite IEEE
values (NaN or ±infinity) that pandas/numpy float division by zero yields —
a marker, not an exception. -/
inductive FloatVal where
  | val : ℚ → FloatVal
  | undef : FloatVal
deriving DecidableEq, Repr

/-- Float division: division by zero yields the non-finite marker. -/
def fdiv (a b : ℚ) : FloatVal := if b = 0 then FloatVal.undef else FloatVal.val (a / b)

/-- Scaling a float result by a constant; non-finite values stay non-finite. -/
def fmul : FloatVal → ℚ → FloatVal
  | FloatVal.val a, c => FloatVal.val (a * c)
  | FloatVal.undef, _ => FloatVal.undef

/-- `df['profit'] = df['revenue'] - df['expenses']`. -/
def profit (r : Row) : ℚ := r.revenue - r.expenses

/-- `df['margin'] = (df['profit'] / df['revenue']) * 100`. -/
def margin (r : Row) : FloatVal := fmul (fdiv (profit r) r.revenue) 100

/-- `total_revenue = df['revenue'].sum()`. -/
def totalRevenue (rows : List Row) : ℚ := (rows.map Row.revenue).sum

/-- `total_profit = df['profit'].sum()`. -/
def totalProfit (rows : List Row) : ℚ := (rows.map profit).sum

/-- `target_revenue = total_revenue * 0.95`. -/
def targetRevenue (rows : List Row) : ℚ := totalRevenue rows * (95 / 100)

/-- `target_profit = total_profit * 0.90`. -/
def targetProfit (rows : List Row) : ℚ := totalProfit rows * (90 / 100)

/-- `(total_revenue - target_revenue) / target_revenue * 100`. -/
def revenueDelta (rows : List Row) : FloatVal :=
  fmul (fdiv (totalRevenue rows - targetRevenue rows) (targetRevenue rows)) 100

/-- `(total_profit - target_profit) / target_profit * 100`. -/
def profitDelta (rows : List Row) : FloatVal :=
  fmul (fdiv (totalProfit rows - targetProfit rows) (targetProfit rows)) 100

/-- `month_order = ['Jan', ..., 'Dec']`, the fixed calendar sequence used both
for the categorical month sort and (via `%b` parsing) for date reconstruction. -/
def monthOrder : List String :=
  ["Jan", "Feb", "Mar", "Apr", "May", "Jun", "Jul", "Aug", "Sep", "Oct", "Nov", "Dec"]

/-- One row of `monthly_data`: a month with its summed revenue and expenses. -/
structure MonthAgg where
  month : String
  revenue : ℚ
  expenses : ℚ
deriving DecidableEq, Repr, Inhabited

/-- The sort key of `pd.Categorical(..., categories=month_order)`: the calendar
position of the month; an unknown month becomes NaN and sorts last, which
`indexOf` models by returning the list length (12). -/
def monthKey (a : MonthAgg) : Nat := monthOrder.indexOf a.month

/-- Revenue summed over the rows of one month (`groupby('month')` sum). -/
def sumRevMonth (rows : List Row) (m : String) : ℚ :=
  ((rows.filter fun r => decide (r.month = m)).map Row.revenue).sum

/-- Expenses summed over the rows of one month (`groupby('month')` sum). -/
def sumExpMonth (rows : List Row) (m : String) : ℚ :=
  ((rows.filter fun r => decide (r.month = m)).map Row.expenses).sum

/-- The groups of `df.groupby('month')[['revenue','expenses']].sum()`:
one entry per distinct month value. -/
def monthGroups (rows : List Row) : List MonthAgg :=
  ((rows.map Row.month).dedup).map fun m => ⟨m, sumRevMonth rows m, sumExpMonth rows m⟩

/-- `monthly_data.sort_values('month')` after the categorical recoding:
the month groups sorted by calendar position. -/
def monthlyData (rows : List Row) : List MonthAgg :=
  (monthGroups rows).insertionSort fun a b => monthKey a ≤ monthKey b

/-- `pd.to_datetime(..., format='%Y-%b')`: the calendar number (1–12) of a
month abbreviation.  An unknown abbreviation would raise in pandas; `indexOf`
then yields 13, a value excluded by the validity hypotheses of the theorems. -/
def monthNum (m : String) : Nat := monthOrder.indexOf m + 1

/-- Gregorian leap-year test, as in Python's `datetime`. -/
def isLeap (y : Nat) : Bool := y % 4 == 0 && (y % 100 != 0 || y % 400 == 0)

/-- 1 in a leap year, else 0. -/
def leapAdj (y : Nat) : Nat := if isLeap y then 1 else 0

/-- Days before month `m` in year `y` (`datetime`'s `_days_before_month`). -/
def daysBeforeMonth (y m : Nat) : Nat :=
  match m with
  | 1 => 0
  | 2 => 31
  | 3 => 59 + leapAdj y
  | 4 => 90 + leapAdj y
  | 5 => 120 + leapAdj y
  | 6 => 151 + leapAdj y
  | 7 => 181 + leapAdj y
  | 8 => 212 + leapAdj y
  | 9 => 243 + leapAdj y
  | 10 => 273 + leapAdj y
  | 11 => 304 + leapAdj y
  | 12 => 334 + leapAdj y
  | _ => 0

/-- Days before January 1 of year `y` (`datetime`'s `_days_before_year`). -/
def daysBeforeYear (y : Nat) : Nat :=
  365 * (y - 1) + (y - 1) / 4 + (y - 1) / 400 - (y - 1) / 100

/-- `date(y, m, 1).toordinal()`: the proleptic Gregorian ordinal of the first
day of the month (all dates in the pipeline are first-of-month). -/
def toordinal (d : Nat × Nat) : Nat := daysBeforeYear d.1 + daysBeforeMonth d.1 d.2 + 1

/-- `date + pd.DateOffset(months=k)` on a first-of-month date. -/
def addMonths (d : Nat × Nat) (k : Nat) : Nat × Nat :=
  ((d.1 + (d.2 - 1 + k) / 12, (d.2 - 1 + k) % 12 + 1) : Nat × Nat)

/-- One point of `forecast_df`/`combined_df`: a (year, month) date and the
period's revenue. -/
structure FPoint where
  date : Nat × Nat
  revenue : ℚ
deriving DecidableEq, Repr, Inhabited

/-- The distinct `(year, month)` keys of `df.groupby(['year','month'])`. -/
def distinctPeriods (rows : List Row) : List (Nat × String) :=
  (rows.map fun r => (r.year, r.month)).dedup

/-- Revenue summed over one `(year, month)` group. -/
def sumRevPeriod (rows : List Row) (y : Nat) (m : String) : ℚ :=
  ((rows.filter fun r => decide (r.year = y ∧ r.month = m)).map Row.revenue).sum

/-- `forecast_df` before sorting: one point per distinct period, with its
reconstructed first-of-month date and its summed revenue. -/
def periodPoints (rows : List Row) : List FPoint :=
  (distinctPeriods rows).map fun p => ⟨(p.1, monthNum p.2), sumRevPeriod rows p.1 p.2⟩

/-- The chronological ordinal used as sort key and regression abscissa. -/
def pointKey (p : FPoint) : Nat := toordinal p.date

/-- `forecast_df.sort_values('date')`. -/
def sortedPoints (rows : List Row) : List FPoint :=
  (periodPoints rows).insertionSort fun a b => pointKey a ≤ pointKey b

/-- `np.polyfit(x, y, 1)`: the closed-form (normal-equation) least-squares
line, returned as (slope, intercept). -/
def polyfit1 (xs ys : List ℚ) : ℚ × ℚ :=
  let n : ℚ := xs.length
  let sx := xs.sum
  let sy := ys.sum
  let sxx := (xs.map fun x => x * x).sum
  let sxy := ((xs.zip ys).map fun p => p.1 * p.2).sum
  ((n * sxy - sx * sy) / (n * sxx - sx * sx), (sy * sxx - sx * sxy) / (n * sxx - sx * sx))

/-- `p = np.poly1d(z)` evaluated at `t`. -/
def lineEval (z : ℚ × ℚ) (t : ℚ) : ℚ := z.1 * t + z.2

/-- The line fitted over the historical points of `forecast_df`. -/
def theFit (rows : List Row) : ℚ × ℚ :=
  polyfit1 ((sortedPoints rows).map fun p => (toordinal p.date : ℚ))
    ((sortedPoints rows).map FPoint.revenue)

/-- The last element of a list of points (`forecast_df['date'].iloc[-1]`). -/
def lastPoint : List FPoint → FPoint
  | [] => default
  | [a] => a
  | _ :: b :: l => lastPoint (b :: l)

/-- `last_date = forecast_df['date'].iloc[-1]`. -/
def lastDate (rows : List Row) : Nat × Nat := (lastPoint (sortedPoints rows)).date

/-- `future_df`: the next three calendar months after the last historical
date, each with the fitted line's value at its ordinal. -/
def futurePoints (rows : List Row) : List FPoint :=
  [1, 2, 3].map fun k =>
    ⟨addMonths (lastDate rows) k,
     lineEval (theFit rows) (toordinal (addMonths (lastDate rows) k) : ℚ)⟩

/-- The outcome of the forecasting tab: either the not-enough-data warning or
the historical and projected point lists. -/
inductive ForecastResult where
  | insufficientData : ForecastResult
  | projection : List FPoint → List FPoint → ForecastResult
deriving DecidableEq, Repr

/-- `if len(forecast_df) > 1: ... else: st.warning(...)`. -/
def forecast (rows : List Row) : ForecastResult :=
  if 1 < (sortedPoints rows).length then
    ForecastResult.projection (sortedPoints rows) (futurePoints rows)
  else ForecastResult.insufficientData

/-- The fallback rows of the spec's end-to-end scenarios (a fixture:
scenario 1 of the spec's testable properties). -/
def scenario1Rows : List Row :=
  [{ month := "Jan", year := 2024, revenue := 150000, expenses := 90000, department := "Sales" },
   { month := "Feb", year := 2024, revenue := 160000, expenses := 95000, department := "Sales" },
   { month := "Jan", year := 2024, revenue := 80000, expenses := 70000, department := "IT" }]

/-! ## Supporting lemmas -/

/-- One seeding pass never yields an empty row set: on any feed failure or
degenerate feed the six fallback rows are inserted. -/
lemma seedData_ne_nil (f : Option (List Period)) : seedData f ≠ [] := by
  cases f with
  | none => simp [seedData, fallbackData]
  | some ps =>
    simp only [seedData]
    split
    · simp [fallbackData]
    · assumption

/-! ## C1 — empty department selection -/

/-- C1 (counterexample): the claim "filtering with an empty department set
yields an empty result" is false on the code: on the fallback table and
year 2024, the empty selection returns all 6 rows, because the
`AND department IN (...)` clause is only appended when `selected_depts` is
truthy (non-empty). -/
theorem empty_dept_filter_claim_false :
    queryFilter fallbackData 2024 [] ≠ [] ∧
    (queryFilter fallbackData 2024 []).length = 6 := by
  constructor <;> decide

/-- C1 (amended): filtering with an empty department set applies no department
restriction at all — it returns every row of the selected year ("all
departments"), not zero rows. -/
theorem empty_dept_filter_all (table : List Row) (y : Nat) :
    queryFilter table y [] = table.filter fun r => decide (r.year = y) := rfl

/-! ## C2 — synthesizer/fallback row invariants -/

/-- C2 (counterexample): the claim is false as stated: the first fallback row
(Jan 2024 Sales) has expenses 90000 ≠ 0.65 · 150000, so the 0.65 ratio does
not hold on the hardcoded fallback dataset; moreover without a sign
restriction on the feed values a negative close price would make the
synthesized revenue negative. -/
theorem synth_ratio_claim_false :
    (fallbackData.headI).expenses ≠ (65 / 100) * (fallbackData.headI).revenue ∧
    ((rowsFor (-1) 1 "Jan" 2024).headI).revenue < 0 := by
  constructor
  · show (90000 : ℚ) ≠ (65 / 100) * 150000
    norm_num
  · show simRevenue (-1) 1 * (6 / 10) < 0
    unfold simRevenue
    norm_num

/-- C2 (amended): every feed-synthesized row built from a nonnegative
(close, volume) pair has nonnegative revenue and expenses with
expenses = 0.65 · revenue exactly; every fallback row has nonnegative revenue
and expenses, but the fallback rows do not obey the 0.65 ratio. -/
theorem synth_fallback_invariants :
    (∀ c v : ℚ, 0 ≤ c → 0 ≤ v → ∀ (m : String) (y : Nat), ∀ r ∈ rowsFor c v m y,
      0 ≤ r.revenue ∧ 0 ≤ r.expenses ∧ r.expenses = (65 / 100) * r.revenue) ∧
    (∀ r ∈ fallbackData, 0 ≤ r.revenue ∧ 0 ≤ r.expenses) := by
  constructor
  · intro c v hc hv m y r hr
    have h0 : 0 ≤ simRevenue c v := by
      unfold simRevenue
      exact mul_nonneg (div_nonneg (mul_nonneg hc hv) (by norm_num)) (by norm_num)
    have he : 0 ≤ simExpenses c v := by
      unfold simExpenses
      exact mul_nonneg h0 (by norm_num)
    simp only [rowsFor, List.mem_cons, List.not_mem_nil, or_false] at hr
    rcases hr with rfl | rfl
    · refine ⟨mul_nonneg h0 (by norm_num), mul_nonneg he (by norm_num), ?_⟩
      show simExpenses c v * (6 / 10) = (65 / 100) * (simRevenue c v * (6 / 10))
      unfold simExpenses
      ring
    · refine ⟨mul_nonneg h0 (by norm_num), mul_nonneg he (by norm_num), ?_⟩
      show simExpenses c v * (4 / 10) = (65 / 100) * (simRevenue c v * (4 / 10))
      unfold simExpenses
      ring
  · intro r hr
    fin_cases hr <;> exact ⟨by norm_num, by norm_num⟩

/-- C2 witness: the amended invariants evaluated at a concrete feed pair and
at the first fallback row. -/
theorem synth_fallback_invariants_witness :
    0 ≤ ((rowsFor 1 1 "Jan" 2024).headI).revenue ∧
    ((rowsFor 1 1 "Jan" 2024).headI).expenses =
      (65 / 100) * ((rowsFor 1 1 "Jan" 2024).headI).revenue ∧
    0 ≤ (fallbackData.headI).revenue := by
  have h := synth_fallback_invariants.1 1 1 (by norm_num) (by norm_num) "Jan" 2024
    ((rowsFor 1 1 "Jan" 2024).headI) (by simp [rowsFor])
  exact ⟨h.1, h.2.2, (synth_fallback_invariants.2 fallbackData.headI (by simp [fallbackData])).1⟩

/-! ## C3 — idempotent seeding -/

/-- C3: seeding is idempotent: a second `init_database` pass over the table
left by the first one changes nothing — the row count equals one seeding
pass's output, never double, because insertion is guarded by the
`SELECT count(*) == 0` check and a pass always inserts at least the fallback
rows. -/
theorem seeding_idempotent (f f' : Option (List Period)) :
    (initDatabase (initDatabase [] f) f').length = (initDatabase [] f).length := by
  have h1 : initDatabase [] f = seedData f := by simp [initDatabase]
  rw [h1, initDatabase, if_neg (by simpa [List.length_eq_zero] using seedData_ne_nil f)]

/-! ## C5 — per-row profit and margin -/

/-- C5: for every row, profit = revenue − expenses, and margin is
(profit / revenue) · 100 when revenue ≠ 0 and the explicit non-finite
marker (never an exception — `margin` is a total function) when revenue = 0. -/
theorem profit_margin_rows (r : Row) :
    profit r = r.revenue - r.expenses ∧
    (r.revenue ≠ 0 →
      margin r = FloatVal.val ((r.revenue - r.expenses) / r.revenue * 100)) ∧
    (r.revenue = 0 → margin r = FloatVal.undef) := by
  refine ⟨rfl, fun h => ?_, fun h => ?_⟩ <;>
    simp [margin, fdiv, fmul, profit, h]

/-- C5 witness: the margin formula at a revenue-bearing row and the marker at
a zero-revenue row. -/
theorem profit_margin_rows_witness :
    margin { month := "Jan", year := 2024, revenue := 150000, expenses := 90000,
             department := "Sales" } =
      FloatVal.val ((150000 - 90000) / 150000 * 100) ∧
    margin { month := "Jan", year := 2024, revenue := 0, expenses := 70000,
             department := "IT" } = FloatVal.undef :=
  ⟨(profit_margin_rows _).2.1 (by norm_num), (profit_margin_rows _).2.2 rfl⟩

/-! ## C6 — synthesizer split sums -/

/-- C6: a feed period with non-missing close and volume yields exactly the
two department rows; the simulated expenses are exactly 0.65 of the simulated
revenue, and the Sales and IT shares (60% / 40%) of both revenue and expenses
sum back to the period totals (exactly, in ℚ). -/
theorem synthesizer_split (c v : ℚ) (m : String) (y : Nat) :
    processHistory [{ close := some c, volume := some v, month := m, year := y }] =
      rowsFor c v m y ∧
    simExpenses c v = (65 / 100) * simRevenue c v ∧
    ((rowsFor c v m y).map Row.revenue).sum = simRevenue c v ∧
    ((rowsFor c v m y).map Row.expenses).sum = simExpenses c v := by
  refine ⟨by simp [processHistory], by unfold simExpenses; ring, ?_, ?_⟩ <;>
    simp [rowsFor] <;> ring

/-! ## C8 — zero targets give the marker, not a crash -/

/-- C8: when a KPI total is zero the corresponding target (total · k) is zero
and the delta computation returns the explicit non-finite marker; the delta
functions are total, so no exception is raised. -/
theorem zero_target_delta (rows : List Row) :
    (totalRevenue rows = 0 → revenueDelta rows = FloatVal.undef) ∧
    (totalProfit rows = 0 → profitDelta rows = FloatVal.undef) := by
  constructor <;> intro h <;>
    simp [revenueDelta, profitDelta, targetRevenue, targetProfit, fdiv, fmul, h]

/-- C8 witness: both deltas at the empty filtered dataset, whose totals are
zero. -/
theorem zero_target_delta_witness :
    revenueDelta [] = FloatVal.undef ∧ profitDelta [] = FloatVal.undef :=
  ⟨(zero_target_delta []).1 rfl, (zero_target_delta []).2 rfl⟩

/-! ## C9 — the deltas are data-independent constants -/

/-- C9: because the targets are fixed multiples of the actuals themselves,
the revenue delta is the constant (1 − 0.95)/0.95 · 100 = 100/19 (≈ 5.26%)
whenever total revenue is positive, and the profit delta is the constant
(1 − 0.90)/0.90 · 100 = 100/9 (≈ 11.1%) whenever total profit is positive. -/
theorem fixed_delta_constants (rows : List Row) :
    (0 < totalRevenue rows → revenueDelta rows = FloatVal.val (100 / 19)) ∧
    (0 < totalProfit rows → profitDelta rows = FloatVal.val (100 / 9)) := by
  constructor
  · intro h
    have h0 : totalRevenue rows ≠ 0 := ne_of_gt h
    have hne : targetRevenue rows ≠ 0 := by
      unfold targetRevenue
      exact mul_ne_zero h0 (by norm_num)
    unfold revenueDelta fdiv
    rw [if_neg hne]
    simp only [fmul, FloatVal.val.injEq]
    unfold targetRevenue
    field_simp
    ring
  · intro h
    have h0 : totalProfit rows ≠ 0 := ne_of_gt h
    have hne : targetProfit rows ≠ 0 := by
      unfold targetProfit
      exact mul_ne_zero h0 (by norm_num)
    unfold profitDelta fdiv
    rw [if_neg hne]
    simp only [fmul, FloatVal.val.injEq]
    unfold targetProfit
    field_simp
    ring

/-- C9 witness: the constant deltas on the spec's scenario-1 rows. -/
theorem fixed_delta_constants_witness :
    0 < totalRevenue scenario1Rows ∧
    revenueDelta scenario1Rows = FloatVal.val (100 / 19) ∧
    0 < totalProfit scenario1Rows ∧
    profitDelta scenario1Rows = FloatVal.val (100 / 9) := by
  have hr : 0 < totalRevenue scenario1Rows := by
    norm_num [totalRevenue, scenario1Rows]
  have hp : 0 < totalProfit scenario1Rows := by
    norm_num [totalProfit, scenario1Rows, profit]
  exact ⟨hr, (fixed_delta_constants scenario1Rows).1 hr, hp,
    (fixed_delta_constants scenario1Rows).2 hp⟩

/-! ## C7 — monthly rollup -/

instance : IsTotal MonthAgg fun a b => monthKey a ≤ monthKey b :=
  ⟨fun _ _ => Nat.le_total _ _⟩

instance : IsTrans MonthAgg fun a b => monthKey a ≤ monthKey b :=
  ⟨fun _ _ _ => Nat.le_trans⟩

/-- The head of a non-empty list is one of its elements. -/
lemma headI_mem {α : Type} [Inhabited α] {l : List α} (h : l ≠ []) : l.headI ∈ l := by
  cases l with
  | nil => exact absurd rfl h
  | cons a t => simp

/-- C7: the monthly rollup groups the filtered rows by month (one output entry
per distinct month, carrying that month's summed revenue and expenses, months
absent from the input absent from the output) and lists the groups in calendar
order; on the scenario-1 rows the output months are Jan then Feb, and Jan's
combined revenue is 230000 (with 160000 of expenses). -/
theorem monthly_rollup_spec :
    (∀ rows : List Row,
      List.Sorted (fun a b => monthKey a ≤ monthKey b) (monthlyData rows) ∧
      (∀ e ∈ monthlyData rows,
        e.month ∈ rows.map Row.month ∧
        e.revenue = sumRevMonth rows e.month ∧
        e.expenses = sumExpMonth rows e.month) ∧
      (∀ m ∈ rows.map Row.month,
        ⟨m, sumRevMonth rows m, sumExpMonth rows m⟩ ∈ monthlyData rows)) ∧
    (monthlyData scenario1Rows).map MonthAgg.month = ["Jan", "Feb"] ∧
    sumRevMonth scenario1Rows "Jan" = 230000 ∧
    sumExpMonth scenario1Rows "Jan" = 160000 := by
  refine ⟨fun rows => ⟨List.sorted_insertionSort _ _, ?_, ?_⟩, rfl, ?_, ?_⟩
  · intro e he
    rw [monthlyData, List.mem_insertionSort, monthGroups] at he
    obtain ⟨m, hm, rfl⟩ := List.mem_map.1 he
    exact ⟨List.mem_dedup.1 hm, rfl, rfl⟩
  · intro m hm
    rw [monthlyData, List.mem_insertionSort, monthGroups]
    exact List.mem_map.2 ⟨m, List.mem_dedup.2 hm, rfl⟩
  · show (150000 : ℚ) + (80000 + 0) = 230000
    norm_num
  · show (90000 : ℚ) + (70000 + 0) = 160000
    norm_num

/-- C7 witness: the first rollup entry on the scenario rows is a month of the
input, as the rollup theorem demands of every entry. -/
theorem monthly_rollup_spec_witness :
    ((monthlyData scenario1Rows).headI).month ∈ scenario1Rows.map Row.month := by
  have hne : monthlyData scenario1Rows ≠ [] := by
    intro h
    have h2 := monthly_rollup_spec.2.1
    rw [h] at h2
    exact absurd h2 (by simp)
  exact ((monthly_rollup_spec.1 scenario1Rows).2.1 _ (headI_mem hne)).1

/-! ## C4 — forecast engine -/

instance : IsTotal FPoint fun a b => pointKey a ≤ pointKey b :=
  ⟨fun _ _ => Nat.le_total _ _⟩

instance : IsTrans FPoint fun a b => pointKey a ≤ pointKey b :=
  ⟨fun _ _ _ => Nat.le_trans⟩

/-- The leap adjustment is 0 or 1. -/
lemma leapAdj_le_one (y : Nat) : leapAdj y ≤ 1 := by
  unfold leapAdj
  split <;> omega

/-- A Gregorian year has at least 365 days. -/
lemma daysBeforeYear_succ_ge (y : Nat) (hy : 1 ≤ y) :
    daysBeforeYear y + 365 ≤ daysBeforeYear (y + 1) := by
  unfold daysBeforeYear
  omega

/-- The last element of a non-empty point list is one of its elements. -/
lemma lastPoint_mem : ∀ l : List FPoint, l ≠ [] → lastPoint l ∈ l
  | [], h => absurd rfl h
  | [_], _ => by simp [lastPoint]
  | a :: b :: t, _ => by
    show lastPoint (b :: t) ∈ a :: b :: t
    exact List.mem_cons_of_mem a (lastPoint_mem (b :: t) (by simp))

/-- Adding one month to a valid first-of-month date strictly increases its
proleptic ordinal. -/
lemma toordinal_lt_next (d : Nat × Nat) (hy : 1 ≤ d.1) (h1 : 1 ≤ d.2) (h2 : d.2 ≤ 12) :
    toordinal d < toordinal (addMonths d 1) := by
  obtain ⟨y, m⟩ := d
  simp only at hy h1 h2
  have hL := leapAdj_le_one y
  by_cases h12 : m = 12
  · subst h12
    have hadd : addMonths (y, 12) 1 = (y + 1, 1) := by
      simp [addMonths]
    rw [hadd]
    have h365 := daysBeforeYear_succ_ge y hy
    simp only [toordinal, daysBeforeMonth]
    omega
  · have hadd : addMonths (y, m) 1 = (y, m + 1) := by
      simp only [addMonths, Prod.mk.injEq]
      omega
    rw [hadd]
    simp only [toordinal]
    have hmono : daysBeforeMonth y m < daysBeforeMonth y (m + 1) := by
      interval_cases m <;> simp [daysBeforeMonth] <;> omega
    omega

/-- The month component produced by `addMonths` is a valid month. -/
lemma addMonths_snd_bounds (d : Nat × Nat) (k : Nat) :
    1 ≤ (addMonths d k).2 ∧ (addMonths d k).2 ≤ 12 := by
  simp only [addMonths]
  omega

/-- `addMonths` never decreases the year. -/
lemma addMonths_fst_ge (d : Nat × Nat) (k : Nat) : d.1 ≤ (addMonths d k).1 := by
  simp [addMonths]

/-- Month offsets compose. -/
lemma addMonths_addMonths (d : Nat × Nat) (h1 : 1 ≤ d.2) (k : Nat) :
    addMonths (addMonths d k) 1 = addMonths d (k + 1) := by
  obtain ⟨y, m⟩ := d
  simp only at h1
  simp only [addMonths, Prod.mk.injEq]
  constructor <;> omega

/-- Adding `k ≥ 1` months to a valid date strictly increases its ordinal:
every projected date is strictly after the date it is projected from. -/
lemma toordinal_lt_addMonths (d : Nat × Nat) (hy : 1 ≤ d.1) (h1 : 1 ≤ d.2) (h2 : d.2 ≤ 12) :
    ∀ k : Nat, 1 ≤ k → toordinal d < toordinal (addMonths d k) := by
  intro k
  induction k with
  | zero => omega
  | succ n ih =>
    intro _
    rcases Nat.eq_zero_or_pos n with hn | hn
    · subst hn
      exact toordinal_lt_next d hy h1 h2
    · have hb := addMonths_snd_bounds d n
      have hstep := toordinal_lt_next (addMonths d n)
        (le_trans hy (addMonths_fst_ge d n)) hb.1 hb.2
      rw [addMonths_addMonths d h1 n] at hstep
      exact lt_trans (ih hn) hstep

/-- A month abbreviation of the fixed calendar list maps to a month number
between 1 and 12. -/
lemma monthNum_mem_bounds {m : String} (h : m ∈ monthOrder) :
    1 ≤ monthNum m ∧ monthNum m ≤ 12 := by
  unfold monthNum
  have hlt := List.indexOf_lt_length.2 h
  have h12 : monthOrder.length = 12 := rfl
  omega

/-- The closed-form slope and intercept satisfy the normal equations of the
degree-1 least-squares problem whenever the system is non-degenerate, i.e.
they are the least-squares line that `np.polyfit(x, y, 1)` computes. -/
lemma polyfit1_normal_equations (xs ys : List ℚ)
    (hd : (xs.length : ℚ) * (xs.map fun x => x * x).sum - xs.sum * xs.sum ≠ 0) :
    ys.sum = (polyfit1 xs ys).1 * xs.sum + (polyfit1 xs ys).2 * xs.length ∧
    ((xs.zip ys).map fun p => p.1 * p.2).sum =
      (polyfit1 xs ys).1 * (xs.map fun x => x * x).sum + (polyfit1 xs ys).2 * xs.sum := by
  unfold polyfit1
  simp only
  constructor <;> field_simp <;> ring

/-- C4: with exactly one distinct (year, month) period the Forecast Engine
returns the insufficient-data signal and no forecast; with two or more
distinct periods it returns the chronologically sorted historical points
together with exactly 3 projected points, each dated a strictly later
calendar month than the last historical date, and each carrying the fitted
least-squares line's value at its date ordinal.  The hypotheses state the
validity conditions under which `pd.to_datetime` does not raise: every month
is one of the twelve abbreviations and every year is a valid calendar year. -/
theorem forecast_engine_spec (rows : List Row)
    (hm : ∀ r ∈ rows, r.month ∈ monthOrder)
    (hy : ∀ r ∈ rows, 1 ≤ r.year) :
    ((distinctPeriods rows).length = 1 → forecast rows = ForecastResult.insufficientData) ∧
    (2 ≤ (distinctPeriods rows).length →
      forecast rows = ForecastResult.projection (sortedPoints rows) (futurePoints rows) ∧
      List.Sorted (fun a b => pointKey a ≤ pointKey b) (sortedPoints rows) ∧
      (futurePoints rows).length = 3 ∧
      (∀ p ∈ futurePoints rows,
        toordinal (lastDate rows) < toordinal p.date ∧
        p.revenue = lineEval (theFit rows) (toordinal p.date))) := by
  have hlen : (sortedPoints rows).length = (distinctPeriods rows).length := by
    rw [sortedPoints, (List.perm_insertionSort _ _).length_eq, periodPoints,
      List.length_map]
  constructor
  · intro h
    rw [forecast, if_neg (by omega)]
  · intro h
    have h2 : 1 < (sortedPoints rows).length := by omega
    refine ⟨by rw [forecast, if_pos h2], List.sorted_insertionSort _ _, rfl, ?_⟩
    have hne : sortedPoints rows ≠ [] := by
      intro hnil
      rw [hnil] at h2
      simp at h2
    have hlp := lastPoint_mem (sortedPoints rows) hne
    rw [sortedPoints, List.mem_insertionSort, periodPoints] at hlp
    obtain ⟨q, hq, hqe⟩ := List.mem_map.1 hlp
    rw [distinctPeriods, List.mem_dedup] at hq
    obtain ⟨r, hr, hre⟩ := List.mem_map.1 hq
    have hld : lastDate rows = (r.year, monthNum r.month) := by
      rw [lastDate, sortedPoints, periodPoints, ← hqe, ← hre]
    have hb := monthNum_mem_bounds (hm r hr)
    have key : ∀ k : Nat, 1 ≤ k →
        toordinal (lastDate rows) < toordinal (addMonths (lastDate rows) k) := by
      intro k hk
      rw [hld]
      exact toordinal_lt_addMonths (r.year, monthNum r.month) (hy r hr) hb.1 hb.2 k hk
    intro p hp
    simp only [futurePoints, List.map_cons, List.map_nil, List.mem_cons,
      List.not_mem_nil, or_false] at hp
    rcases hp with rfl | rfl | rfl
    · exact ⟨key 1 (by norm_num), rfl⟩
    · exact ⟨key 2 (by norm_num), rfl⟩
    · exact ⟨key 3 (by norm_num), rfl⟩

/-- C4 witness: the fallback dataset has 3 distinct periods, so the engine
projects, and exactly 3 points are projected. -/
theorem forecast_engine_spec_witness :
    2 ≤ (distinctPeriods fallbackData).length ∧
    forecast fallbackData =
      ForecastResult.projection (sortedPoints fallbackData) (futurePoints fallbackData) ∧
    (futurePoints fallbackData).length = 3 := by
  have h := (forecast_engine_spec fallbackData (by decide) (by decide)).2 (by decide)
  exact ⟨by decide, h.1, h.2.2.1⟩

/-! ## C10 — deterministic fallback seeding -/

/-- C10: an unavailable feed (`none`) or a feed that yields no usable period
seeds exactly the 6 fixed fallback rows: months Jan/Feb/Mar of year 2024 for
departments Sales and IT only. -/
theorem fallback_seed_spec :
    seedData none = fallbackData ∧
    (∀ ps : List Period, processHistory ps = [] → seedData (some ps) = fallbackData) ∧
    fallbackData.length = 6 ∧
    (∀ r ∈ fallbackData,
      (r.month = "Jan" ∨ r.month = "Feb" ∨ r.month = "Mar") ∧ r.year = 2024 ∧
      (r.department = "Sales" ∨ r.department = "IT")) := by
  refine ⟨rfl, ?_, rfl, by decide⟩
  intro ps h
  simp [seedData, h]

/-- C10 witness: the empty history (zero usable periods) seeds the fallback
rows, and the first fallback row's year is 2024. -/
theorem fallback_seed_spec_witness :
    seedData (some []) = fallbackData ∧
    (fallbackData.headI).year = 2024 :=
  ⟨fallback_seed_spec.2.1 [] rfl,
   (fallback_seed_spec.2.2.2 fallbackData.headI (by decide)).2.1⟩

end FinApp
